import Mathlib

/-!
Shallow embedding of the network assembly and constraint-validation pipeline of
the hybrid_renewable_pypsa repository (hybrid_renewable_pypsa/src/network_setup.py,
hybrid_renewable_pypsa/src/data_loader.py and the legacy src/network_setup.py,
src/data_loader.py), together with theorems settling the specification's claims
against the embedded code.

Numbers are modelled as rationals (the sources only compare, scale and copy
them), timestamps as natural numbers (hour index into the snapshot range),
pandas DataFrames and Python dicts as association lists whose first binding
wins, and raised exceptions as `Except` errors carrying the message string
built by `NetworkSetupError` (which prefixes the optional component context
as "component: message").
-/

set_option maxRecDepth 100000

namespace HybridRenewable

/-- A Python value appearing as a component attribute: number, string or boolean. -/
inductive Value where
  | num : ℚ → Value
  | str : String → Value
  | bool : Bool → Value
deriving DecidableEq, Repr

/-- Association-list lookup by key, first binding wins (Python dict lookup,
pandas label lookup). -/
def alookup {κ α : Type} [DecidableEq κ] : List (κ × α) → κ → Option α
  | [], _ => none
  | (k, v) :: rest, key => if k = key then some v else alookup rest key

/-- Attribute dictionary of a registered component: keyword name to value. -/
abbrev Attrs := List (String × Value)

/-- Python keyword expansion `f(k1 = v1, ..., kn = vn, **spec)`: if any key of
`spec` repeats one of the explicit keywords, the call raises
`TypeError: got multiple values for keyword argument`; otherwise the call
receives the explicit keywords followed by the spec entries. -/
def expandKwargs (explicit spec : Attrs) : Except String Attrs :=
  match spec.find? (fun p => (alookup explicit p.1).isSome) with
  | some p => .error ("TypeError: got multiple values for keyword argument " ++ p.1)
  | none => .ok (explicit ++ spec)

/-- One row of `transformers.csv` as read by `_add_transformers`.  The fields
the adder reads by name are explicit; every other CSV column of the row sits in
`extra` and is never read by the adder. -/
structure TransformerRow where
  name : String
  techType : String
  bus0 : String
  bus1 : String
  s_nom : ℚ
  voltage0 : ℚ
  per_unit_impedance : ℚ
  x_r_ratio : ℚ
  tap_position : Option ℚ
  phases : Option ℚ
  cooling : Option String
  extra : Attrs
deriving DecidableEq, Repr

/-- `base_impedance = (xfmr['voltage0'] ** 2) / (xfmr['s_nom'] * 1e6)`. -/
def baseImpedance (r : TransformerRow) : ℚ :=
  r.voltage0 ^ 2 / (r.s_nom * 1000000)

/-- The explicit keyword arguments `_add_transformers` passes to
`network.add("Transformer", ...)`, in source order. -/
def transformerExplicitKwargs (r : TransformerRow) : Attrs :=
  [("name", .str r.name),
   ("bus0", .str r.bus0),
   ("bus1", .str r.bus1),
   ("s_nom", .num r.s_nom),
   ("x", .num (r.per_unit_impedance * baseImpedance r)),
   ("r", .num (r.per_unit_impedance / r.x_r_ratio * baseImpedance r)),
   ("tap_ratio", .num (r.tap_position.getD 1)),
   ("phases", .num (r.phases.getD 3)),
   ("model", .str (r.cooling.getD "ONAN"))]

/-- A technology library: spec row (an attribute dictionary) keyed by `type`. -/
abbrev TechLib := List (String × Attrs)

/-- `_add_transformers`, one row: `tech_specs = tech_lib.loc[xfmr['type']]`
(a missing type raises `KeyError`), then
`network.add("Transformer", name=..., ..., **tech_specs.to_dict())`.
Returns the attribute dictionary the component is registered with. -/
def addTransformer (techLib : TechLib) (r : TransformerRow) : Except String Attrs :=
  match alookup techLib r.techType with
  | none => .error ("KeyError: '" ++ r.techType ++ "'")
  | some spec => expandKwargs (transformerExplicitKwargs r) spec

/-- One row of `storage_units.csv` as read by `_add_storage_units`; columns the
adder never reads sit in `extra`. -/
structure StorageUnitRow where
  name : String
  techType : String
  bus : String
  p_nom : ℚ
  max_hours : ℚ
  efficiency_store : ℚ
  efficiency_dispatch : ℚ
  cyclic : Bool
  standing_loss : Option ℚ
  extra : Attrs
deriving DecidableEq, Repr

/-- The explicit keyword arguments `_add_storage_units` passes to
`network.add("StorageUnit", ...)`, in source order. -/
def storageExplicitKwargs (u : StorageUnitRow) : Attrs :=
  [("name", .str u.name),
   ("bus", .str u.bus),
   ("p_nom", .num u.p_nom),
   ("max_hours", .num u.max_hours),
   ("efficiency_store", .num u.efficiency_store),
   ("efficiency_dispatch", .num u.efficiency_dispatch),
   ("cyclic_state_of_charge", .bool u.cyclic),
   ("standing_loss", .num (u.standing_loss.getD 0))]

/-- `_add_storage_units`, one row: spec lookup by `type` then
`network.add("StorageUnit", name=..., ..., **tech_specs.to_dict())`. -/
def addStorageUnit (techLib : TechLib) (u : StorageUnitRow) : Except String Attrs :=
  match alookup techLib u.techType with
  | none => .error ("KeyError: '" ++ u.techType ++ "'")
  | some spec => expandKwargs (storageExplicitKwargs u) spec

/-- Concrete transformer row for the overlay counterexample: its CSV row also
carries the column `typical_impedance_pct = 5`, which the adder never passes. -/
def c1Row : TransformerRow :=
  { name := "T1", techType := "distribution", bus0 := "B1", bus1 := "B2",
    s_nom := 1, voltage0 := 110, per_unit_impedance := 1, x_r_ratio := 2,
    tap_position := none, phases := none, cooling := none,
    extra := [("typical_impedance_pct", .num 5)] }

/-- Concrete `distribution` technology spec that also defines
`typical_impedance_pct = 7`. -/
def c1Spec : Attrs :=
  [("typical_impedance_pct", .num 7), ("cooling_types", .str "ONAN")]

/-- Concrete technology library holding `c1Spec` under the row's type. -/
def c1Lib : TechLib := [("distribution", c1Spec)]

/-- The attribute dictionary `_add_transformers` registers for `c1Row`:
explicit keywords followed by the spec entries. -/
def c1Registered : Attrs := transformerExplicitKwargs c1Row ++ c1Spec

/-- `Except` outcome test: did the computation raise? -/
def isErr {ε α : Type} : Except ε α → Bool
  | .error _ => true
  | .ok _ => false

/-- A registered bus: identity and nominal voltage. -/
structure BusC where
  name : String
  v_nom : ℚ
deriving DecidableEq, Repr

/-- A registered one-bus component (Generator, Load, StorageUnit). -/
structure OneBusComp where
  name : String
  bus : String
deriving DecidableEq, Repr

/-- A registered two-bus component (Line, Transformer, Link). -/
structure TwoBusComp where
  name : String
  bus0 : String
  bus1 : String
deriving DecidableEq, Repr

/-- The slice of the pypsa network that `_validate_network_topology` reads:
one collection per component class. -/
structure Network where
  buses : List BusC
  lines : List TwoBusComp
  transformers : List TwoBusComp
  generators : List OneBusComp
  storageUnits : List OneBusComp
  links : List TwoBusComp
  loads : List OneBusComp
deriving DecidableEq, Repr

/-- `bus in self.network.buses.index`. -/
def busExists (n : Network) (b : String) : Bool :=
  n.buses.any (fun bus => bus.name == b)

/-- Error message of `_check_component_connections`:
`NetworkSetupError(f"{comp_type} {name} connected to invalid bus {bus}", component=comp_type)`. -/
def invalidBusMsg (compType compName bus : String) : String :=
  compType ++ ": " ++ compType ++ " " ++ compName ++ " connected to invalid bus " ++ bus

/-- The inner loop of `_check_component_connections` over a one-bus collection:
raise at the first component whose bus is not registered. -/
def checkOneBusList (n : Network) (compType : String) : List OneBusComp → Except String Unit
  | [] => .ok ()
  | c :: rest =>
    if busExists n c.bus then checkOneBusList n compType rest
    else .error (invalidBusMsg compType c.name c.bus)

/-- The inner loop of `_check_component_connections` over the Link collection:
for each link the buses checked are `[bus0, bus1]`, in that order. -/
def checkLinkList (n : Network) : List TwoBusComp → Except String Unit
  | [] => .ok ()
  | c :: rest =>
    if busExists n c.bus0 then
      if busExists n c.bus1 then checkLinkList n rest
      else .error (invalidBusMsg "Link" c.name c.bus1)
    else .error (invalidBusMsg "Link" c.name c.bus0)

/-- `_check_component_connections`: the `components` dictionary holds exactly
Generator, Load, StorageUnit and Link (in that iteration order); Lines and
Transformers are absent from it. -/
def checkComponentConnections (n : Network) : Except String Unit := do
  checkOneBusList n "Generator" n.generators
  checkOneBusList n "Load" n.loads
  checkOneBusList n "StorageUnit" n.storageUnits
  checkLinkList n n.links

/-- `self.network.buses.at[b, 'v_nom']`: nominal voltage of a registered bus. -/
def busVnom (n : Network) (b : String) : Option ℚ :=
  (n.buses.find? (fun bus => bus.name == b)).map (·.v_nom)

/-- Absolute value on the rationals, spelled so that the kernel evaluates it
(`qabs_eq_abs` identifies it with `|·|`). -/
def qabs (x : ℚ) : ℚ := if x < 0 then -x else x

/-- The body of `_check_voltage_levels` for one line: `.at` raises `KeyError`
when the bus label is missing, and a difference of nominal voltages beyond
`1e-3` raises the voltage-level error.  (The `pd.isna` guard on the bus labels
cannot fire in this embedding, where bus labels are strings.) -/
def checkLineVoltage (n : Network) (l : TwoBusComp) : Except String Unit :=
  match busVnom n l.bus0 with
  | none => .error ("KeyError: '" ++ l.bus0 ++ "'")
  | some v0 =>
    match busVnom n l.bus1 with
    | none => .error ("KeyError: '" ++ l.bus1 ++ "'")
    | some v1 =>
      if qabs (v0 - v1) > 1 / 1000 then
        .error ("Line: Line " ++ l.name ++ " connects different voltage levels")
      else .ok ()

/-- `_check_voltage_levels`: iterates over `self.network.lines` only — no loop
over transformers exists in the source, and no comparison against transformer
rated voltages occurs anywhere in it. -/
def checkVoltageLevels (n : Network) : List TwoBusComp → Except String Unit
  | [] => .ok ()
  | l :: rest =>
    match checkLineVoltage n l with
    | .ok _ => checkVoltageLevels n rest
    | .error e => .error e

/-- `_validate_network_topology`: connection check, then voltage check.  The
final `self.network.consistency_check()` call belongs to the external engine
and is outside the embedded code. -/
def validateNetworkTopology (n : Network) : Except String Unit := do
  checkComponentConnections n
  checkVoltageLevels n n.lines

/-- Referential closure over the four classes the connection check covers. -/
def refsClosedFour (n : Network) : Prop :=
  (∀ g ∈ n.generators, busExists n g.bus = true) ∧
  (∀ l ∈ n.loads, busExists n l.bus = true) ∧
  (∀ s ∈ n.storageUnits, busExists n s.bus = true) ∧
  (∀ k ∈ n.links, busExists n k.bus0 = true ∧ busExists n k.bus1 = true)

/-- Counterexample network for the referential-closure claim: one bus `B1`, a
transformer `T1` whose `bus1` reference `BX` is not registered. -/
def c2Net : Network :=
  { buses := [⟨"B1", 110⟩], lines := [],
    transformers := [⟨"T1", "B1", "BX"⟩],
    generators := [], storageUnits := [], links := [], loads := [] }

/-- Counterexample network for the voltage-invariant claim: transformer `T1`
connects a 110 V bus to a 220 V bus; there are no lines. -/
def c3Net : Network :=
  { buses := [⟨"B1", 110⟩, ⟨"B2", 220⟩], lines := [],
    transformers := [⟨"T1", "B1", "B2"⟩],
    generators := [], storageUnits := [], links := [], loads := [] }

/-- The two per-unit limit columns that `_apply_static_constraints` writes;
`none` models a missing (NaN) cell, as in a row freshly created by a pandas
`.loc` enlargement. -/
structure PuAttrs where
  p_min_pu : Option ℚ
  p_max_pu : Option ℚ
deriving DecidableEq, Repr

/-- A component DataFrame as seen by the static-constraint applier: rows keyed
by component name. -/
abbrev CompDf := List (String × PuAttrs)

/-- The component collections named by `COMPONENT_MAP` in
`_apply_static_constraints`. -/
structure ConstraintNet where
  generators : CompDf
  storage_units : CompDf
  lines : CompDf
  loads : CompDf
  transformers : CompDf
deriving DecidableEq, Repr

/-- Target collection of a static constraint. -/
inductive CompTag where
  | generators | storage_units | lines | loads | transformers
deriving DecidableEq, Repr

/-- `COMPONENT_MAP`: Python dict from the derived component-type string to the
pypsa collection attribute; a missing key raises `KeyError`. -/
def componentMap (t : String) : Option CompTag :=
  if t = "Generator" then some .generators
  else if t = "StorageUnit" then some .storage_units
  else if t = "Line" then some .lines
  else if t = "Load" then some .loads
  else if t = "Transformer" then some .transformers
  else none

/-- `getattr(self.network, pypsa_component)`. -/
def getDf (net : ConstraintNet) : CompTag → CompDf
  | .generators => net.generators
  | .storage_units => net.storage_units
  | .lines => net.lines
  | .loads => net.loads
  | .transformers => net.transformers

/-- Write a collection back into the network. -/
def setDf (net : ConstraintNet) : CompTag → CompDf → ConstraintNet
  | .generators, df => { net with generators := df }
  | .storage_units, df => { net with storage_units := df }
  | .lines, df => { net with lines := df }
  | .loads, df => { net with loads := df }
  | .transformers, df => { net with transformers := df }

/-- `constraint['component_id'].split('_', 1)[0]`: the id text before the
first underscore (the whole id when no underscore occurs). -/
def splitHead (s : String) : String :=
  String.mk (s.toList.takeWhile (fun c => !(c == '_')))

/-- One row of the static-constraint table.  `component_type` is the CSV
column the file carries; `_apply_static_constraints` never reads it. -/
structure StaticConstraint where
  component_type : String
  component_id : String
  min_value : Option ℚ
  max_value : Option ℚ
deriving DecidableEq, Repr

/-- Python truthiness of `constraint.get(f"{limit_type}_value")`: a missing
field is `None` (falsy) and `0` is falsy, so only a present non-zero value
passes the walrus test.  (`float('nan')`, which is truthy in Python, has no
counterpart among the rationals of this embedding.) -/
def truthy : Option ℚ → Bool
  | none => false
  | some v => !(v == 0)

/-- pandas `df.loc[id, col] = v`: update the cell when the row label exists,
otherwise enlarge the frame with a fresh row whose other cells are missing. -/
def dfLocSet (df : CompDf) (id : String) (f : PuAttrs → PuAttrs) : CompDf :=
  if (alookup df id).isSome then
    df.map (fun p => if p.1 = id then (p.1, f p.2) else p)
  else
    df ++ [(id, f ⟨none, none⟩)]

/-- The `limit_type = min` iteration of the write loop: when the `min_value`
cell is truthy, `df.loc[component_id, 'p_min_pu'] = float(min_value)`. -/
def applyMin (c : StaticConstraint) (df : CompDf) : CompDf :=
  if truthy c.min_value then
    dfLocSet df c.component_id (fun a => { a with p_min_pu := c.min_value })
  else df

/-- The `limit_type = max` iteration of the write loop: when the `max_value`
cell is truthy, `df.loc[component_id, 'p_max_pu'] = float(max_value)`. -/
def applyMax (c : StaticConstraint) (df : CompDf) : CompDf :=
  if truthy c.max_value then
    dfLocSet df c.component_id (fun a => { a with p_max_pu := c.max_value })
  else df

/-- The body of `_apply_static_constraints` for one constraint row: the
component type is derived from the prefix of `component_id` before the first
underscore; an unknown prefix raises `KeyError`, caught and re-raised as
`NetworkSetupError("Invalid component ...", component="Constraint")`; then the
`min` and `max` limits are written, in that order, whenever truthy. -/
def applyOneStatic (c : StaticConstraint) (net : ConstraintNet) : Except String ConstraintNet :=
  match componentMap (splitHead c.component_id) with
  | none => .error ("Constraint: Invalid component " ++ c.component_id)
  | some tag => .ok (setDf net tag (applyMax c (applyMin c (getDf net tag))))

/-- `_apply_static_constraints` over the whole constraint table: the loop
mutates the network in place row by row and the first failing row raises,
leaving the mutations of the earlier rows behind. -/
def applyStaticConstraints : List StaticConstraint → ConstraintNet → ConstraintNet × Option String
  | [], net => (net, none)
  | c :: rest, net =>
    match applyOneStatic c net with
    | .ok net' => applyStaticConstraints rest net'
    | .error e => (net, some e)

/-- A constraint profile series: value per timestamp, as grouped by
`load_constraint_profiles`. -/
abbrev SeriesQ := List (ℕ × ℚ)

/-- A time-varying attribute column of one component over the snapshots;
`none` models a missing (NaN) cell. -/
abbrev TimeCol := List (ℕ × Option ℚ)

/-- One row of `dynamic_constraints.csv` as read by
`_apply_dynamic_constraints`. -/
structure DynConstraint where
  component_type : String
  component_id : String
  constraint_type : String
  constraint_id : String
  value : ℚ
  start_time : Option ℕ
  end_time : Option ℕ
deriving DecidableEq, Repr

/-- `self.network.snapshots.slice_indexer(start, end)` membership on a sorted
snapshot index: open-ended on either side when the bound is absent. -/
def inWindow (start stop : Option ℕ) (t : ℕ) : Bool :=
  (match start with | none => true | some s => decide (s ≤ t)) &&
  (match stop with | none => true | some e => decide (t ≤ e))

/-- `profiles.get(constraint['constraint_id'], constraint['value'])`, read at
one snapshot: a bound profile series is aligned by timestamp (a timestamp the
series lacks yields a missing cell), a literal value applies at every
snapshot. -/
def dynResolvedValue (profiles : List (String × SeriesQ)) (c : DynConstraint) (t : ℕ) : Option ℚ :=
  match alookup profiles c.constraint_id with
  | some s => alookup s t
  | none => some c.value

/-- `time_series.loc[time_slice, component_id] = value`: the component's
time-varying column after the windowed write — snapshots inside the slice take
the resolved value, snapshots outside keep their cell. -/
def applyDynamicWrite (profiles : List (String × SeriesQ)) (c : DynConstraint)
    (col : TimeCol) : TimeCol :=
  col.map (fun p =>
    if inWindow c.start_time c.end_time p.1 then (p.1, dynResolvedValue profiles c p.1) else p)

/-- State of the constraint-application stage: the static collections and the
time-varying attribute columns (one per component id). -/
structure ConstraintStageState where
  net : ConstraintNet
  tables : List (String × TimeCol)
deriving DecidableEq, Repr

/-- `_add_constraints`: loads the three constraint sources and applies the
static constraints.  The call
`self._apply_dynamic_constraints(constraints['dynamic'], constraints['profiles'])`
is commented out in the source, so the dynamic rows and the profile
dictionary never touch the network. -/
def addConstraints (staticRows : List StaticConstraint) (_dynamicRows : List DynConstraint)
    (_profiles : List (String × SeriesQ)) (st : ConstraintStageState) :
    ConstraintStageState × Option String :=
  let (net', err) := applyStaticConstraints staticRows st.net
  ({ st with net := net' }, err)

/-- Counterexample network for the static-constraint claim: storage unit `S1`
registered with `p_min_pu = 0` and the default `p_max_pu = 1`. -/
def c4Net : ConstraintNet :=
  { generators := [], storage_units := [("S1", ⟨some 0, some 1⟩)],
    lines := [], loads := [], transformers := [] }

/-- The static-constraint row of the claim:
`component_type = StorageUnit, component_id = S1, max_value = 0.8`. -/
def c4Row : StaticConstraint :=
  { component_type := "StorageUnit", component_id := "S1",
    min_value := none, max_value := some (4 / 5) }

/-- Hourly snapshots of one week, as fixed by `_configure_temporal`
(`pd.date_range("2024-01-01", periods=24*7, freq="h")`), indexed by hour. -/
def weekSnapshots : List ℕ := List.range 168

/-- Counterexample stage state for the dynamic-windowing claim: generator `G1`
whose `p_max_pu` column is 1 at every snapshot of the week. -/
def c5State : ConstraintStageState :=
  { net := { generators := [("G1", ⟨some 0, some 1⟩)], storage_units := [],
             lines := [], loads := [], transformers := [] },
    tables := [("G1", weekSnapshots.map (fun t => (t, some (1 : ℚ))))] }

/-- The dynamic constraint of the claim: window day 2 (hours 24 to 47) on
generator `G1`, profile `DC1`. -/
def c5Constraint : DynConstraint :=
  { component_type := "Generator", component_id := "G1",
    constraint_type := "p_max_pu", constraint_id := "DC1", value := 1 / 2,
    start_time := some 24, end_time := some 47 }

/-- The bound constraint profile of the claim: value 0.5 at each of the 24
snapshots of day 2. -/
def c5Profiles : List (String × SeriesQ) :=
  [("DC1", (List.range 24).map (fun i => (24 + i, (1 : ℚ) / 2)))]

/-- A loaded time-series profile: index name (`none` models a pandas index
named `None`, as on an empty DataFrame), timestamp index, and the two demand
columns. -/
structure Profile where
  indexName : Option String
  index : List ℕ
  p_set : List ℚ
  q_set : List ℚ
deriving DecidableEq, Repr

/-- `pd.DataFrame()`, as returned by `load_profile` on a missing, empty or
unparseable profile file: no columns, no index, index name `None`. -/
def emptyProfile : Profile := ⟨none, [], [], []⟩

/-- How Python prints the index name inside the error message. -/
def renderIndexName : Option String → String
  | none => "None"
  | some s => s

/-- `_validate_load_profile`: the index must be named `snapshot`, and
`profile.index.equals(self.network.snapshots)` must hold (same values, same
order).  Both failures raise `NetworkSetupError(..., component="Load")`; only
the second message mentions the load name. -/
def validateLoadProfile (snapshots : List ℕ) (p : Profile) (loadName : String) :
    Except String Unit :=
  if p.indexName = some "snapshot" then
    if p.index = snapshots then .ok ()
    else .error ("Load: Time index mismatch for load " ++ loadName)
  else
    .error ("Load: Profile index must be named 'snapshot', got '" ++
      renderIndexName p.indexName ++ "'")

/-- One row of `loads.csv` as read by `_add_loads`. -/
structure LoadRow where
  name : String
  bus : String
  profile_id : String
  p_min : ℚ
  p_max : ℚ
  carrier : String
  load_type : String
deriving DecidableEq, Repr

/-- A load registered by `_add_loads`: the component and the bound profile
whose `p_set`/`q_set` series it carries. -/
structure BoundLoad where
  comp : OneBusComp
  profile : Profile
deriving DecidableEq, Repr

/-- `_add_loads`: for each row, load the profile (a failed load yields the
empty DataFrame), validate it against the snapshots, and register the load
with the profile's series; the first validation failure raises. -/
def addLoads (snapshots : List ℕ) (profileSource : List (String × Profile)) :
    List LoadRow → Except String (List BoundLoad)
  | [] => .ok []
  | r :: rest => do
    let p := (alookup profileSource r.profile_id).getD emptyProfile
    let _ ← validateLoadProfile snapshots p r.name
    let out ← addLoads snapshots profileSource rest
    .ok (⟨⟨r.name, r.bus⟩, p⟩ :: out)

/-- State of a requested file on disk, as the legacy read layer can encounter
it. -/
inductive FileState where
  | table : List Attrs → FileState
  | missing : FileState
  | fileEmpty : FileState
  | malformed : FileState
deriving DecidableEq, Repr

/-- The Python exceptions the legacy `read_csv` body can raise. -/
inductive PyError where
  | valueError : String → PyError
  | fileNotFound : PyError
  | emptyData : PyError
  | other : PyError
deriving DecidableEq, Repr

/-- The explicit allow-list of `_sanitize_file_name` (identical in
`src/data_loader.py` and `src/network_setup.py`). -/
def allowedFiles : List String :=
  ["buses.csv", "generators.csv", "storage_units.csv", "loads.csv",
   "lines.csv", "transformers.csv", "links.csv"]

/-- `_sanitize_file_name`: a name outside the allow-list raises
`ValueError(f"Invalid file name: {file_name}")`. -/
def sanitizeFileName (nm : String) : Except PyError String :=
  if nm ∈ allowedFiles then .ok nm
  else .error (.valueError ("Invalid file name: " ++ nm))

/-- The `try` body of the legacy `read_csv`: sanitize, then parse the file. -/
def readCsvBody (fs : String → FileState) (nm : String) : Except PyError (List Attrs) :=
  match sanitizeFileName nm with
  | .error e => .error e
  | .ok s =>
    match fs s with
    | .table rows => .ok rows
    | .missing => .error .fileNotFound
    | .fileEmpty => .error .emptyData
    | .malformed => .error .other

/-- The legacy `read_csv` of `src/data_loader.py` (and the identical
`_read_csv` of `src/network_setup.py`): every exception the body raises —
including the `ValueError` of the allow-list check — is caught, logged, and
turned into the empty DataFrame.  No exception escapes. -/
def read_csv (fs : String → FileState) (nm : String) : List Attrs :=
  match readCsvBody fs nm with
  | .ok t => t
  | .error _ => []

/-- A technology-library CSV as loaded: its column set and its rows keyed by
`type`. -/
structure TechTable where
  columns : List String
  rows : TechLib
deriving Repr

/-- Render a list of column names for the error message. -/
def joinComma : List String → String
  | [] => ""
  | [x] => x
  | x :: rest => x ++ ", " ++ joinComma rest

/-- `_validate_tech_library`: a library missing a required column is a fatal
configuration error at load time. -/
def validateTechLibrary (t : TechTable) (required : List String) : Except String TechLib :=
  let missing := required.filter (fun col => !(t.columns.contains col))
  if missing.isEmpty then .ok t.rows
  else .error ("Tech Libraries: Technology library missing columns: [" ++
    joinComma missing ++ "]")

/-- The three validated technology libraries of `_load_tech_libraries`. -/
structure TechLibraries where
  storage : TechLib
  transformer : TechLib
  generator : TechLib
deriving Repr

/-- One row of `generators.csv` as read by `_add_generators`. -/
structure GenRow where
  name : String
  bus : String
  techType : String
  p_nom : ℚ
  efficiency : ℚ
  marginal_cost : ℚ
  carrier : String
  p_max_pu : ℚ
deriving DecidableEq, Repr

/-- One row of `links.csv` as read by `_add_links`. -/
structure LinkRow where
  name : String
  bus0 : String
  bus1 : String
  p_nom : ℚ
  efficiency : ℚ
  capital_cost : ℚ
  carrier : String
  linkType : String
deriving DecidableEq, Repr

/-- The whole file-based configuration one build run reads. -/
structure BuildConfig where
  storageTechTable : TechTable
  transformerTechTable : TechTable
  generatorTechTable : TechTable
  busRows : List BusC
  transformerRows : List TransformerRow
  lineRows : List TwoBusComp
  generatorRows : List GenRow
  storageRows : List StorageUnitRow
  linkRows : List LinkRow
  loadRows : List LoadRow
  profileSource : List (String × Profile)
  staticConstraintRows : List StaticConstraint
  dynamicConstraintRows : List DynConstraint
  constraintProfiles : List (String × SeriesQ)
deriving Repr

/-- `_load_tech_libraries`: loads and validates the three libraries, in source
order, with their required columns. -/
def loadTechLibrariesStage (cfg : BuildConfig) : Except String TechLibraries := do
  let storage ← validateTechLibrary cfg.storageTechTable
    ["roundtrip_efficiency", "cycle_life"]
  let transformer ← validateTechLibrary cfg.transformerTechTable
    ["typical_impedance_pct", "cooling_types"]
  let generator ← validateTechLibrary cfg.generatorTechTable
    ["ramp_limit_up_pct_per_min", "ramp_limit_down_pct_per_min"]
  .ok ⟨storage, transformer, generator⟩

/-- The keys of `CARRIER_CONFIG`, in declaration order. -/
def carrierConfig : List String := ["AC", "DC", "electricity", "hydro", "solar"]

/-- The growing network aggregate during assembly. -/
structure RegNet where
  carriers : List String
  buses : List BusC
  lines : List TwoBusComp
  transformers : List (TwoBusComp × Attrs)
  generators : List (OneBusComp × ℚ)
  storageUnits : List (OneBusComp × Attrs)
  links : List TwoBusComp
  loads : List BoundLoad
deriving Repr

/-- The empty aggregate a fresh `pypsa.Network()` presents. -/
def emptyRegNet : RegNet := ⟨[], [], [], [], [], [], [], []⟩

/-- The topology view of the aggregate that `_validate_network_topology`
reads. -/
def toNetwork (n : RegNet) : Network :=
  { buses := n.buses, lines := n.lines,
    transformers := n.transformers.map (·.1),
    generators := n.generators.map (·.1),
    storageUnits := n.storageUnits.map (·.1),
    links := n.links, loads := n.loads.map (·.comp) }

/-- `_add_carriers`: registers the five configured carriers. -/
def addCarriersStage (n : RegNet) : RegNet :=
  { n with carriers := n.carriers ++ carrierConfig }

/-- An adder of `_add_components`: reads the configuration and the loaded
libraries and grows the aggregate, or raises. -/
abbrev Adder := BuildConfig → TechLibraries → RegNet → Except String RegNet

/-- `_add_buses`. -/
def addBusesStage : Adder := fun cfg _ n =>
  .ok { n with buses := n.buses ++ cfg.busRows }

/-- The row loop of `_add_transformers`. -/
def addTransformersLoop (lib : TechLib) : List TransformerRow → RegNet → Except String RegNet
  | [], n => .ok n
  | r :: rest, n => do
    let attrs ← addTransformer lib r
    addTransformersLoop lib rest
      { n with transformers := n.transformers ++ [(⟨r.name, r.bus0, r.bus1⟩, attrs)] }

/-- `_add_transformers`: each row is registered with the attribute dictionary
built by `addTransformer` (spec lookup plus keyword expansion). -/
def addTransformersStage : Adder := fun cfg libs n =>
  addTransformersLoop libs.transformer cfg.transformerRows n

/-- `_add_lines`. -/
def addLinesStage : Adder := fun cfg _ n =>
  .ok { n with lines := n.lines ++ cfg.lineRows }

/-- The row loop of `_add_generators`: `tech_lib.loc[gen['type']]` raises
`KeyError` for a type absent from the generator library; otherwise the
generator is registered (its `p_max_pu` taken from the row). -/
def addGeneratorsLoop (lib : TechLib) : List GenRow → RegNet → Except String RegNet
  | [], n => .ok n
  | r :: rest, n =>
    match alookup lib r.techType with
    | none => .error ("KeyError: '" ++ r.techType ++ "'")
    | some _ =>
      addGeneratorsLoop lib rest
        { n with generators := n.generators ++ [(⟨r.name, r.bus⟩, r.p_max_pu)] }

/-- `_add_generators`. -/
def addGeneratorsStage : Adder := fun cfg libs n =>
  addGeneratorsLoop libs.generator cfg.generatorRows n

/-- The row loop of `_add_storage_units`. -/
def addStorageUnitsLoop (lib : TechLib) : List StorageUnitRow → RegNet → Except String RegNet
  | [], n => .ok n
  | r :: rest, n => do
    let attrs ← addStorageUnit lib r
    addStorageUnitsLoop lib rest
      { n with storageUnits := n.storageUnits ++ [(⟨r.name, r.bus⟩, attrs)] }

/-- `_add_storage_units`: each row is registered with the dictionary built by
`addStorageUnit`. -/
def addStorageUnitsStage : Adder := fun cfg libs n =>
  addStorageUnitsLoop libs.storage cfg.storageRows n

/-- `_validate_link_voltages`: reads the two bus voltages with `.at` (a
missing bus raises `KeyError`) and rejects an inverter whose DC side is at
most 1500 V while its AC side is neither 415 V nor 800 V. -/
def validateLinkVoltages (net : Network) (l : LinkRow) : Except String Unit :=
  match busVnom net l.bus0 with
  | none => .error ("KeyError: '" ++ l.bus0 ++ "'")
  | some v0 =>
    match busVnom net l.bus1 with
    | none => .error ("KeyError: '" ++ l.bus1 ++ "'")
    | some v1 =>
      if l.linkType = "inverter" then
        if v0 ≤ 1500 ∧ ¬(v1 = 415 ∨ v1 = 800) then
          .error ("Link: Inverter " ++ l.name ++ " has invalid voltage pairing")
        else .ok ()
      else .ok ()

/-- The row loop of `_add_links`. -/
def addLinksLoop : List LinkRow → RegNet → Except String RegNet
  | [], n => .ok n
  | r :: rest, n => do
    let _ ← validateLinkVoltages (toNetwork n) r
    addLinksLoop rest { n with links := n.links ++ [⟨r.name, r.bus0, r.bus1⟩] }

/-- `_add_links`: validates each link's voltages against the registered buses,
then registers it. -/
def addLinksStage : Adder := fun cfg _ n =>
  addLinksLoop cfg.linkRows n

/-- `_add_loads`, as an adder over the aggregate. -/
def addLoadsStage : Adder := fun cfg _ n => do
  let bound ← addLoads weekSnapshots cfg.profileSource cfg.loadRows
  .ok { n with loads := n.loads ++ bound }

/-- The `component_order` list of `_add_components`: component class, the
context name the error wrapper derives from the adder's name, and the adder —
in source order. -/
def componentAdders : List (String × String × Adder) :=
  [("Bus", "buses", addBusesStage),
   ("Transformer", "transformers", addTransformersStage),
   ("Line", "lines", addLinesStage),
   ("Generator", "generators", addGeneratorsStage),
   ("StorageUnit", "storage_units", addStorageUnitsStage),
   ("Link", "links", addLinksStage),
   ("Load", "loads", addLoadsStage)]

/-- The loop of `_add_components`: run each adder in order; the first failure
is re-raised as
`NetworkSetupError(f"Component addition failed: {e}", component=name[5:])`. -/
def runAdders (cfg : BuildConfig) (libs : TechLibraries) :
    List (String × String × Adder) → RegNet → Except String RegNet
  | [], n => .ok n
  | (_, errName, f) :: rest, n =>
    match f cfg libs n with
    | .ok n' => runAdders cfg libs rest n'
    | .error e => .error (errName ++ ": Component addition failed: " ++ e)

/-- `_add_components`. -/
def addComponentsStage (cfg : BuildConfig) (libs : TechLibraries) (n : RegNet) :
    Except String RegNet :=
  runAdders cfg libs componentAdders n

/-- The order in which the assembly stage registers component classes, read
off the `component_order` list of `_add_components`. -/
def assemblyClassOrder : List String := componentAdders.map (·.1)

/-- The registration order of the legacy pipeline: `setup_network` of
`src/network_setup.py` calls `_add_buses`, `_add_generators`,
`_add_storage_units`, `_add_loads`, `_add_lines`, `_add_transformers`,
`_add_links`, in that order. -/
def legacySetupOrder : List String :=
  ["Bus", "Generator", "StorageUnit", "Load", "Line", "Transformer", "Link"]

/-- The fixed order the specification states:
Bus → Transformer → Line → Generator → StorageUnit → Link → Load. -/
def specClaimedOrder : List String :=
  ["Bus", "Transformer", "Line", "Generator", "StorageUnit", "Link", "Load"]

/-- A registered per-unit cell: a numeric attribute from the registered
dictionary when present, else the external engine's declared default. -/
def puOf : Option Value → ℚ → Option ℚ
  | some (.num v), _ => some v
  | _, d => some d

/-- The static-constraint view of the aggregate: each registered component's
per-unit limit cells as the external engine registers them (generators carry
the row's `p_max_pu` and the engine default `p_min_pu = 0`; storage units the
engine defaults `-1` and `1` unless their registered dictionary overrode them;
lines, loads and transformers have no such columns). -/
def regConstraintView (n : RegNet) : ConstraintNet :=
  { generators := n.generators.map (fun g => (g.1.name, ⟨some 0, some g.2⟩)),
    storage_units := n.storageUnits.map (fun s =>
      (s.1.name, ⟨puOf (alookup s.2 "p_min_pu") (-1), puOf (alookup s.2 "p_max_pu") 1⟩)),
    lines := n.lines.map (fun l => (l.name, ⟨none, none⟩)),
    loads := n.loads.map (fun l => (l.comp.name, ⟨none, none⟩)),
    transformers := n.transformers.map (fun t => (t.1.name, ⟨none, none⟩)) }

/-- The time-varying tables the aggregate carries into the constraint stage:
the bound `p_set` series of each load. -/
def regTimeTables (n : RegNet) : List (String × TimeCol) :=
  n.loads.map (fun b =>
    (b.comp.name, List.zipWith (fun t v => (t, some v)) b.profile.index b.profile.p_set))

/-- Everything a successful build leaves behind. -/
structure BuildResult where
  reg : RegNet
  constraints : ConstraintNet
  libs : TechLibraries
deriving Repr

/-- The `self._tech_libraries` dictionary as `_load_tech_libraries` fills
it. -/
def techLibrariesDict (l : TechLibraries) : List (String × TechLib) :=
  [("storage", l.storage), ("transformer", l.transformer), ("generator", l.generator)]

/-- The `try` body of `setup_network`: tech libraries, carriers, components,
constraints, topology validation, in that order.  (`_finalize_network` hands
the network to the external engine's optimizer, outside the embedded code.) -/
def runStages (cfg : BuildConfig) : Except String BuildResult := do
  let libs ← loadTechLibrariesStage cfg
  let net0 := addCarriersStage emptyRegNet
  let net1 ← addComponentsStage cfg libs net0
  let st := ConstraintStageState.mk (regConstraintView net1) (regTimeTables net1)
  let (st', err) := addConstraints cfg.staticConstraintRows cfg.dynamicConstraintRows
    cfg.constraintProfiles st
  match err with
  | some e => .error e
  | none => do
    let _ ← validateNetworkTopology (toNetwork net1)
    .ok ⟨net1, st'.net, libs⟩

/-- The fields of `Network_Setup` the failure handler touches:
`self.network` and `self._tech_libraries`. -/
structure SetupState where
  network : Option BuildResult
  techLibraries : List (String × TechLib)

/-- `setup_network` with its `except` clause: on any stage failure,
`_cleanup_resources` sets `self.network = None` and clears
`self._tech_libraries`, and the exception is re-raised — no network object is
returned. -/
def setupNetwork (cfg : BuildConfig) : SetupState × Except String BuildResult :=
  match runStages cfg with
  | .ok res => ({ network := some res, techLibraries := techLibrariesDict res.libs }, .ok res)
  | .error e => ({ network := none, techLibraries := [] }, .error e)

/-- A line's endpoint voltages both resolve and agree within the `1e-3`
tolerance. -/
def lineVoltageWithin (n : Network) (l : TwoBusComp) : Bool :=
  match busVnom n l.bus0, busVnom n l.bus1 with
  | some v0, some v1 => decide (qabs (v0 - v1) ≤ 1 / 1000)
  | _, _ => false

/-- Well-voltaged network for the amended voltage claim: one line between two
110 V buses. -/
def c3OkNet : Network :=
  { buses := [⟨"B1", 110⟩, ⟨"B2", 110⟩], lines := [⟨"L1", "B1", "B2"⟩],
    transformers := [], generators := [], storageUnits := [], links := [], loads := [] }

/-- Static-constraint row whose `component_id` carries a recognized type
prefix, with no `min_value` and a truthy `max_value`. -/
def c10Row : StaticConstraint :=
  { component_type := "StorageUnit", component_id := "StorageUnit_S1",
    min_value := none, max_value := some (4 / 5) }

/-- Configuration whose generator `G1` declares `type = UnknownGenType`,
absent from the generator technology library; all earlier stages succeed. -/
def c6Cfg : BuildConfig :=
  { storageTechTable := ⟨["type", "roundtrip_efficiency", "cycle_life"], []⟩,
    transformerTechTable := ⟨["type", "typical_impedance_pct", "cooling_types"], []⟩,
    generatorTechTable := ⟨["type", "ramp_limit_up_pct_per_min", "ramp_limit_down_pct_per_min"],
      [("diesel", [("ramp_limit_up_pct_per_min", Value.num 10)])]⟩,
    busRows := [⟨"B1", 110⟩],
    transformerRows := [], lineRows := [],
    generatorRows := [⟨"G1", "B1", "UnknownGenType", 100, 9 / 10, 50, "AC", 1⟩],
    storageRows := [], linkRows := [], loadRows := [], profileSource := [],
    staticConstraintRows := [], dynamicConstraintRows := [], constraintProfiles := [] }

/-- A profile whose index equals the snapshots but whose index is named
`time` instead of `snapshot`. -/
def c7BadProfile : Profile := ⟨some "time", weekSnapshots, [], []⟩

/-- A well-formed profile: index named `snapshot`, index equal to the
snapshot sequence. -/
def c7GoodProfile : Profile :=
  ⟨some "snapshot", weekSnapshots, weekSnapshots.map (fun _ => 1), weekSnapshots.map (fun _ => 0)⟩

/-- A load row bound to `c7GoodProfile`. -/
def c7LoadRow : LoadRow :=
  { name := "L1", bus := "B1", profile_id := "P1", p_min := 0, p_max := 10,
    carrier := "AC", load_type := "residential" }

/-- The profile source holding `c7GoodProfile` under `P1`. -/
def c7Src : List (String × Profile) := [("P1", c7GoodProfile)]

/-- The load `_add_loads` registers from `c7LoadRow`. -/
def c7Bound : BoundLoad := ⟨⟨"L1", "B1"⟩, c7GoodProfile⟩

/-- A file system on which every name — allow-listed or not — parses to a
one-row table. -/
def c9Fs : String → FileState := fun _ => .table [[("name", Value.str "B1")]]

/-! ## Helper lemmas -/

theorem alookup_mem {κ α : Type} [DecidableEq κ] {l : List (κ × α)} {k : κ} {v : α}
    (h : alookup l k = some v) : (k, v) ∈ l := by
  induction l with
  | nil => simp [alookup] at h
  | cons hd tl ih =>
    obtain ⟨k', v'⟩ := hd
    by_cases hk : k' = k
    · subst hk
      simp [alookup] at h
      subst h
      exact List.mem_cons_self _ _
    · simp [alookup, hk] at h
      exact List.mem_cons_of_mem _ (ih h)

theorem alookup_append_left_none {κ α : Type} [DecidableEq κ]
    {l₁ : List (κ × α)} (l₂ : List (κ × α)) {k : κ} (h : alookup l₁ k = none) :
    alookup (l₁ ++ l₂) k = alookup l₂ k := by
  induction l₁ with
  | nil => simp
  | cons hd tl ih =>
    by_cases hk : hd.1 = k
    · simp [alookup, hk] at h
    · simp only [alookup, hk, if_false, List.cons_append] at h ⊢
      exact ih h

theorem alookup_append_left_some {κ α : Type} [DecidableEq κ]
    {l₁ : List (κ × α)} (l₂ : List (κ × α)) {k : κ} {v : α} (h : alookup l₁ k = some v) :
    alookup (l₁ ++ l₂) k = some v := by
  induction l₁ with
  | nil => simp [alookup] at h
  | cons hd tl ih =>
    by_cases hk : hd.1 = k
    · simp only [alookup, hk, if_true, List.cons_append] at h ⊢
      exact h
    · simp only [alookup, hk, if_false, List.cons_append] at h ⊢
      exact ih h

theorem expandKwargs_error_of_overlap {explicit spec : Attrs} {k : String} {v : Value}
    (hk : alookup spec k = some v) (hex : (alookup explicit k).isSome = true) :
    isErr (expandKwargs explicit spec) = true := by
  have hmem : (k, v) ∈ spec := alookup_mem hk
  have hfind : (spec.find? (fun p => (alookup explicit p.1).isSome)).isSome = true :=
    List.find?_isSome.mpr ⟨(k, v), hmem, hex⟩
  unfold expandKwargs
  cases hcase : spec.find? (fun p => (alookup explicit p.1).isSome) with
  | none => rw [hcase] at hfind; simp at hfind
  | some p => simp [isErr]

theorem expandKwargs_ok_lookup {explicit spec : Attrs} {k : String} {v : Value}
    (hk : alookup spec k = some v) {attrs : Attrs}
    (h : expandKwargs explicit spec = .ok attrs) : alookup attrs k = some v := by
  unfold expandKwargs at h
  cases hcase : spec.find? (fun p => (alookup explicit p.1).isSome) with
  | some p => rw [hcase] at h; simp at h
  | none =>
    rw [hcase] at h
    have hattrs : attrs = explicit ++ spec := by
      cases h
      rfl
    have hnone : (alookup explicit k).isSome = false := by
      have := List.find?_eq_none.mp hcase (k, v) (alookup_mem hk)
      simpa using this
    have hnone' : alookup explicit k = none := by
      cases hcase' : alookup explicit k with
      | none => rfl
      | some w => rw [hcase'] at hnone; simp at hnone
    rw [hattrs, alookup_append_left_none spec hnone']
    exact hk

/-! ## C1: overlay precedence between component row and technology spec -/

/-- C1 counterexample.  The claim says that when a component's CSV row and its
resolved technology spec both define the same attribute, the registered value
is the row's.  For transformer `T1`, whose row carries the column
`typical_impedance_pct = 5` while its `distribution` spec defines
`typical_impedance_pct = 7`, the addition succeeds and the registered value is
the spec's 7, not the row's 5: the adder passes only a fixed set of row fields
explicitly and splats the whole spec dictionary on top. -/
theorem c1_counterexample :
    (addTransformer c1Lib c1Row).toOption.bind
        (fun attrs => alookup attrs "typical_impedance_pct") = some (.num 7) ∧
    alookup c1Row.extra "typical_impedance_pct" = some (.num 5) ∧
    ¬ (Value.num 7 = Value.num 5) := by
  refine ⟨by rfl, by rfl, by decide⟩

/-- C1 (amended): when the row and the resolved technology spec both define
the same attribute, the row's value never silently wins.  If the attribute is
one of the keywords the adder passes explicitly, the addition raises a
duplicate-keyword `TypeError`; otherwise the addition succeeds and the
registered value is the spec's.  This holds for both `_add_transformers` and
`_add_storage_units`. -/
theorem c1_overlay_amended (spec : Attrs) (k : String) (v : Value)
    (hk : alookup spec k = some v) :
    (∀ (r : TransformerRow) (lib : TechLib),
        (alookup (transformerExplicitKwargs r) k).isSome = true →
        alookup lib r.techType = some spec →
        isErr (addTransformer lib r) = true) ∧
    (∀ (r : TransformerRow) (lib : TechLib) (attrs : Attrs),
        alookup lib r.techType = some spec → addTransformer lib r = .ok attrs →
        alookup attrs k = some v) ∧
    (∀ (u : StorageUnitRow) (lib : TechLib),
        (alookup (storageExplicitKwargs u) k).isSome = true →
        alookup lib u.techType = some spec →
        isErr (addStorageUnit lib u) = true) ∧
    (∀ (u : StorageUnitRow) (lib : TechLib) (attrs : Attrs),
        alookup lib u.techType = some spec → addStorageUnit lib u = .ok attrs →
        alookup attrs k = some v) := by
  refine ⟨?_, ?_, ?_, ?_⟩
  · intro r lib hex hlib
    unfold addTransformer
    rw [hlib]
    exact expandKwargs_error_of_overlap hk hex
  · intro r lib attrs hlib hok
    unfold addTransformer at hok
    rw [hlib] at hok
    exact expandKwargs_ok_lookup hk hok
  · intro u lib hex hlib
    unfold addStorageUnit
    rw [hlib]
    exact expandKwargs_error_of_overlap hk hex
  · intro u lib attrs hlib hok
    unfold addStorageUnit at hok
    rw [hlib] at hok
    exact expandKwargs_ok_lookup hk hok

/-- Witness for `c1_overlay_amended` at the concrete transformer `T1`. -/
theorem c1_overlay_amended_witness :
    alookup c1Registered "typical_impedance_pct" = some (Value.num 7) :=
  (c1_overlay_amended c1Spec "typical_impedance_pct" (Value.num 7) rfl).2.1
    c1Row c1Lib c1Registered rfl rfl

/-! ## C2: referential closure of the connection check -/

theorem except_bind_unit_ok {a : Except String Unit} {f : Unit → Except String Unit} :
    (a >>= f) = .ok () ↔ a = .ok () ∧ f () = .ok () := by
  cases a with
  | error e => simp [Bind.bind, Except.bind]
  | ok u => cases u; simp [Bind.bind, Except.bind]

theorem checkOneBusList_ok_iff (n : Network) (ct : String) (l : List OneBusComp) :
    checkOneBusList n ct l = .ok () ↔ ∀ c ∈ l, busExists n c.bus = true := by
  induction l with
  | nil => simp [checkOneBusList]
  | cons hd tl ih =>
    by_cases hb : busExists n hd.bus = true
    · simp [checkOneBusList, hb, ih]
    · simp [checkOneBusList, hb, List.forall_mem_cons]

theorem checkLinkList_ok_iff (n : Network) (l : List TwoBusComp) :
    checkLinkList n l = .ok () ↔
      ∀ c ∈ l, busExists n c.bus0 = true ∧ busExists n c.bus1 = true := by
  induction l with
  | nil => simp [checkLinkList]
  | cons hd tl ih =>
    by_cases h0 : busExists n hd.bus0 = true
    · by_cases h1 : busExists n hd.bus1 = true
      · simp [checkLinkList, h0, h1, ih]
      · simp [checkLinkList, h0, h1, List.forall_mem_cons]
    · simp [checkLinkList, h0, List.forall_mem_cons]

/-- C2 counterexample.  The claim says topology validation covers the bus
references of all six component classes and raises whenever any of them
references a missing bus.  On `c2Net`, transformer `T1` references the
unregistered bus `BX`, yet the whole repository-side validation
(`_check_component_connections` followed by `_check_voltage_levels`) passes:
transformers appear in neither check's `components`. -/
theorem c2_counterexample :
    validateNetworkTopology c2Net = .ok () ∧
    c2Net.transformers = [⟨"T1", "B1", "BX"⟩] ∧
    busExists c2Net "BX" = false := by
  refine ⟨by rfl, by rfl, by rfl⟩

/-- C2 (amended): the connection check enforces referential closure exactly
for the four classes its `components` dictionary holds — Generator, Load,
StorageUnit and Link; Lines and Transformers are not covered by it. -/
theorem c2_connection_check_amended (n : Network) :
    checkComponentConnections n = .ok () ↔ refsClosedFour n := by
  unfold checkComponentConnections refsClosedFour
  rw [except_bind_unit_ok, except_bind_unit_ok, except_bind_unit_ok,
    checkOneBusList_ok_iff, checkOneBusList_ok_iff, checkOneBusList_ok_iff,
    checkLinkList_ok_iff]

/-- Witness for `c2_connection_check_amended` on `c3OkNet`, where the check
passes. -/
theorem c2_connection_check_amended_witness : refsClosedFour c3OkNet :=
  (c2_connection_check_amended c3OkNet).mp rfl

/-! ## C3: the voltage invariant of the validation pass -/

theorem qabs_eq_abs (x : ℚ) : qabs x = |x| := by
  unfold qabs
  by_cases h : x < 0
  · rw [if_pos h, abs_of_neg h]
  · rw [if_neg h, abs_of_nonneg (le_of_not_lt h)]

theorem checkLineVoltage_ok {n : Network} {l : TwoBusComp}
    (h : checkLineVoltage n l = .ok ()) : lineVoltageWithin n l = true := by
  cases h0 : busVnom n l.bus0 with
  | none => simp [checkLineVoltage, h0] at h
  | some v0 =>
    cases h1 : busVnom n l.bus1 with
    | none => simp [checkLineVoltage, h0, h1] at h
    | some v1 =>
      simp only [checkLineVoltage, h0, h1] at h
      simp only [lineVoltageWithin, h0, h1]
      rw [decide_eq_true_eq]
      by_cases hle : qabs (v0 - v1) > 1 / 1000
      · rw [if_pos hle] at h
        exact absurd h (by simp)
      · exact le_of_not_lt hle

theorem checkVoltageLevels_ok {n : Network} {ls : List TwoBusComp}
    (h : checkVoltageLevels n ls = .ok ()) :
    ∀ l ∈ ls, lineVoltageWithin n l = true := by
  induction ls with
  | nil => simp
  | cons hd tl ih =>
    intro l hl
    unfold checkVoltageLevels at h
    cases hc : checkLineVoltage n hd with
    | error e => rw [hc] at h; simp at h
    | ok u =>
      cases u
      rw [hc] at h
      rcases List.mem_cons.mp hl with heq | htl
      · subst heq; exact checkLineVoltage_ok hc
      · exact ih h l htl

/-- C3 counterexample.  The claim says validation enforces the voltage
invariant for every Line and every Transformer (with an additional
rated-voltage check for transformers).  On `c3Net`, transformer `T1` connects
a 110 V bus to a 220 V bus — a violation far beyond the `1e-3` tolerance — and
the whole repository-side validation passes: `_check_voltage_levels` iterates
over lines only and never compares rated voltages. -/
theorem c3_counterexample :
    validateNetworkTopology c3Net = .ok () ∧
    c3Net.transformers = [⟨"T1", "B1", "B2"⟩] ∧
    busVnom c3Net "B1" = some 110 ∧ busVnom c3Net "B2" = some 220 ∧
    ¬ (qabs ((110 : ℚ) - 220) ≤ 1 / 1000) := by
  refine ⟨by rfl, by rfl, by rfl, by rfl, ?_⟩
  unfold qabs
  rw [if_pos (by norm_num : ((110 : ℚ) - 220) < 0)]
  norm_num

/-- C3 (amended): the voltage check covers Lines only.  When
`_check_voltage_levels` passes, every registered Line's endpoint buses resolve
and their nominal voltages agree within `1e-3`; Transformers are not checked
at all, and no comparison against transformer rated voltages occurs. -/
theorem c3_line_voltage_amended (n : Network)
    (h : checkVoltageLevels n n.lines = .ok ()) :
    ∀ l ∈ n.lines, lineVoltageWithin n l = true :=
  checkVoltageLevels_ok h

theorem checkLineVoltage_c3OkNet :
    checkLineVoltage c3OkNet ⟨"L1", "B1", "B2"⟩ = .ok () := by
  have h0 : busVnom c3OkNet "B1" = some 110 := rfl
  have h1 : busVnom c3OkNet "B2" = some 110 := rfl
  simp only [checkLineVoltage, h0, h1]
  rw [if_neg (by norm_num [qabs] : ¬ (qabs ((110 : ℚ) - 110) > 1 / 1000))]

theorem checkVoltageLevels_c3OkNet :
    checkVoltageLevels c3OkNet c3OkNet.lines = .ok () := by
  show checkVoltageLevels c3OkNet [⟨"L1", "B1", "B2"⟩] = .ok ()
  unfold checkVoltageLevels
  rw [checkLineVoltage_c3OkNet]
  rfl

/-- Witness for `c3_line_voltage_amended` on `c3OkNet` and its line `L1`. -/
theorem c3_line_voltage_amended_witness :
    lineVoltageWithin c3OkNet ⟨"L1", "B1", "B2"⟩ = true :=
  c3_line_voltage_amended c3OkNet checkVoltageLevels_c3OkNet
    ⟨"L1", "B1", "B2"⟩ (List.mem_singleton.mpr rfl)

/-! ## C4: static constraint application -/

/-- C4 counterexample.  The claim says a static row
`(component_type=StorageUnit, component_id=S1, max_value=0.8)` is resolved via
`component_type` to the storage-unit collection, `S1` is looked up, and
afterwards `S1.p_max_pu = 0.8`.  In the code the collection is chosen from the
prefix of `component_id` before the first underscore — the `component_type`
column is never read — so the row raises
`Constraint: Invalid component S1`, the network is returned unchanged, and
`S1.p_max_pu` remains 1, not 0.8. -/
theorem c4_counterexample :
    applyStaticConstraints [c4Row] c4Net =
      (c4Net, some "Constraint: Invalid component S1") ∧
    alookup c4Net.storage_units "S1" = some ⟨some 0, some 1⟩ ∧
    ¬ ((1 : ℚ) = 4 / 5) := by
  refine ⟨by rfl, by rfl, by norm_num⟩

/-- C4 (amended): `_apply_static_constraints` derives the target collection
from the prefix of `component_id` before the first underscore and ignores the
row's `component_type` field entirely.  For the claim's row, whose
`component_id` is `S1`, the prefix matches no collection, so — whatever the
`component_type` field and the limit values say — the application raises
`Constraint: Invalid component S1` and leaves the network unchanged;
`S1.p_max_pu` keeps its prior value. -/
theorem c4_static_prefix_amended (net : ConstraintNet) (ct : String) (mn mx : Option ℚ) :
    applyStaticConstraints
      [{ component_type := ct, component_id := "S1", min_value := mn, max_value := mx }]
      net = (net, some "Constraint: Invalid component S1") := by
  rfl

/-! ## C10: falsy limit values are never written -/

theorem alookup_cons {κ α : Type} [DecidableEq κ] (k : κ) (v : α) (tl : List (κ × α))
    (key : κ) :
    alookup ((k, v) :: tl) key = if k = key then some v else alookup tl key := rfl

theorem alookup_map_update (df : CompDf) (idKey id : String) (f : PuAttrs → PuAttrs) :
    alookup (df.map (fun p => if p.1 = idKey then (p.1, f p.2) else p)) id
      = (alookup df id).map (fun v => if id = idKey then f v else v) := by
  induction df with
  | nil => rfl
  | cons hd tl ih =>
    obtain ⟨k, v⟩ := hd
    rw [List.map_cons]
    show alookup ((if k = idKey then (k, f v) else (k, v)) :: _) id = _
    by_cases hk' : k = idKey
    · rw [if_pos hk', alookup_cons, alookup_cons]
      by_cases hk : k = id
      · rw [if_pos hk, if_pos hk]
        show some (f v) = some (if id = idKey then f v else v)
        rw [if_pos (hk ▸ hk')]
      · rw [if_neg hk, if_neg hk]
        exact ih
    · rw [if_neg hk', alookup_cons, alookup_cons]
      by_cases hk : k = id
      · rw [if_pos hk, if_pos hk]
        show some v = some (if id = idKey then f v else v)
        rw [if_neg (fun hcontra => hk' (hk.trans hcontra))]
      · rw [if_neg hk, if_neg hk]
        exact ih

theorem dfLocSet_lookup_some {df : CompDf} {id : String} {a : PuAttrs}
    (idKey : String) (f : PuAttrs → PuAttrs) (h : alookup df id = some a) :
    alookup (dfLocSet df idKey f) id = some (if id = idKey then f a else a) := by
  unfold dfLocSet
  by_cases hp : (alookup df idKey).isSome = true
  · rw [if_pos hp, alookup_map_update, h]
    rfl
  · rw [if_neg hp]
    have hne : id ≠ idKey := by
      intro he
      subst he
      rw [h] at hp
      simp at hp
    rw [if_neg hne]
    exact alookup_append_left_some _ h

theorem applyMax_lookup_pmin {c : StaticConstraint} {df : CompDf} {id : String} {a : PuAttrs}
    (h : alookup df id = some a) :
    (alookup (applyMax c df) id).map PuAttrs.p_min_pu = some a.p_min_pu := by
  unfold applyMax
  by_cases ht : truthy c.max_value = true
  · rw [if_pos ht, dfLocSet_lookup_some c.component_id _ h]
    by_cases hid : id = c.component_id
    · rw [if_pos hid]
      rfl
    · rw [if_neg hid]
      rfl
  · rw [if_neg ht, h]
    rfl

theorem applyMin_lookup_pmax {c : StaticConstraint} {df : CompDf} {id : String} {a : PuAttrs}
    (h : alookup df id = some a) :
    (alookup (applyMin c df) id).map PuAttrs.p_max_pu = some a.p_max_pu := by
  unfold applyMin
  by_cases ht : truthy c.min_value = true
  · rw [if_pos ht, dfLocSet_lookup_some c.component_id _ h]
    by_cases hid : id = c.component_id
    · rw [if_pos hid]
      rfl
    · rw [if_neg hid]
      rfl
  · rw [if_neg ht, h]
    rfl

theorem applyMin_of_falsy {c : StaticConstraint} (df : CompDf)
    (h : truthy c.min_value = false) : applyMin c df = df := by
  unfold applyMin
  rw [h]
  rfl

theorem applyMax_of_falsy {c : StaticConstraint} (df : CompDf)
    (h : truthy c.max_value = false) : applyMax c df = df := by
  unfold applyMax
  rw [h]
  rfl

theorem getDf_setDf (net : ConstraintNet) (t tq : CompTag) (df : CompDf) :
    getDf (setDf net t df) tq = if tq = t then df else getDf net tq := by
  cases t <;> cases tq <;> simp [getDf, setDf]

theorem applyStaticConstraints_single (c : StaticConstraint) (net : ConstraintNet) :
    (applyStaticConstraints [c] net).1 =
      match applyOneStatic c net with
      | .ok net' => net'
      | .error _ => net := by
  unfold applyStaticConstraints
  cases h : applyOneStatic c net <;> simp [h, applyStaticConstraints]

/-- C10: a static constraint row whose `min_value` (respectively `max_value`)
is missing or zero never writes `p_min_pu` (respectively `p_max_pu`): the
walrus test `if value := constraint.get(...)` rejects `None` and `0`, so every
component registered before the row keeps its limit cell, whichever collection
the row targets and whether or not the row errors. -/
theorem c10_zero_limit_frame (net : ConstraintNet) (c : StaticConstraint) :
    ((c.min_value = none ∨ c.min_value = some 0) →
      ∀ (tag : CompTag) (id : String) (a : PuAttrs),
        alookup (getDf net tag) id = some a →
        (alookup (getDf (applyStaticConstraints [c] net).1 tag) id).map PuAttrs.p_min_pu
          = some a.p_min_pu) ∧
    ((c.max_value = none ∨ c.max_value = some 0) →
      ∀ (tag : CompTag) (id : String) (a : PuAttrs),
        alookup (getDf net tag) id = some a →
        (alookup (getDf (applyStaticConstraints [c] net).1 tag) id).map PuAttrs.p_max_pu
          = some a.p_max_pu) := by
  constructor
  · intro hmin tag id a h
    have htr : truthy c.min_value = false := by
      rcases hmin with h0 | h0 <;> simp [h0, truthy]
    rw [applyStaticConstraints_single]
    cases happ : applyOneStatic c net with
    | error e =>
      rw [h]
      rfl
    | ok net' =>
      unfold applyOneStatic at happ
      cases hcm : componentMap (splitHead c.component_id) with
      | none =>
        rw [hcm] at happ
        exact absurd happ (by simp)
      | some tagc =>
        rw [hcm] at happ
        injection happ with hnet
        subst hnet
        rw [applyMin_of_falsy _ htr, getDf_setDf]
        by_cases htag : tag = tagc
        · subst htag
          rw [if_pos rfl]
          exact applyMax_lookup_pmin h
        · rw [if_neg htag, h]
          rfl
  · intro hmax tag id a h
    have htr : truthy c.max_value = false := by
      rcases hmax with h0 | h0 <;> simp [h0, truthy]
    rw [applyStaticConstraints_single]
    cases happ : applyOneStatic c net with
    | error e =>
      rw [h]
      rfl
    | ok net' =>
      unfold applyOneStatic at happ
      cases hcm : componentMap (splitHead c.component_id) with
      | none =>
        rw [hcm] at happ
        exact absurd happ (by simp)
      | some tagc =>
        rw [hcm] at happ
        injection happ with hnet
        subst hnet
        rw [applyMax_of_falsy _ htr, getDf_setDf]
        by_cases htag : tag = tagc
        · subst htag
          rw [if_pos rfl]
          exact applyMin_lookup_pmax h
        · rw [if_neg htag, h]
          rfl

/-- Witness for `c10_zero_limit_frame`: a row with no `min_value` and a truthy
`max_value`, targeting the storage collection, leaves the existing unit `S1`'s
`p_min_pu` at its prior value. -/
theorem c10_zero_limit_frame_witness :
    (alookup (getDf (applyStaticConstraints [c10Row] c4Net).1 CompTag.storage_units)
        "S1").map PuAttrs.p_min_pu = some (some 0) :=
  (c10_zero_limit_frame c4Net c10Row).1 (Or.inl rfl) CompTag.storage_units "S1"
    ⟨some 0, some 1⟩ rfl

/-! ## C5: dynamic constraint windowing -/

theorem applyDynamicWrite_cons (p : List (String × SeriesQ)) (c : DynConstraint)
    (tk : ℕ) (v : Option ℚ) (tl : TimeCol) :
    applyDynamicWrite p c ((tk, v) :: tl) =
      (if inWindow c.start_time c.end_time tk = true
        then (tk, dynResolvedValue p c tk) else (tk, v)) :: applyDynamicWrite p c tl := rfl

/-- C5 counterexample.  The claim says the constraint-application stage of the
pipeline applies dynamic constraints, overwriting exactly the windowed
snapshots.  In `_add_constraints` the call to `_apply_dynamic_constraints` is
commented out, so the stage leaves the whole state untouched: on the week of
hourly snapshots with a day-2 window and a 0.5-valued profile, snapshot 24
lies inside the window, the resolved value there is 0.5, and yet after the
stage `G1`'s column still holds 1 at snapshot 24. -/
theorem c5_counterexample :
    (addConstraints [] [c5Constraint] c5Profiles c5State).1 = c5State ∧
    (addConstraints [] [c5Constraint] c5Profiles c5State).2 = none ∧
    (alookup c5State.tables "G1").bind (fun col => alookup col 24) = some (some 1) ∧
    inWindow c5Constraint.start_time c5Constraint.end_time 24 = true ∧
    dynResolvedValue c5Profiles c5Constraint 24 = some (1 / 2) ∧
    ¬ ((1 : ℚ) = 1 / 2) := by
  refine ⟨by rfl, by rfl, by rfl, by rfl, by rfl, by norm_num⟩

/-- C5 (amended): the pipeline's constraint stage applies only static
constraints — the dynamic rows and the profile dictionary have no effect on
the network (the `_apply_dynamic_constraints` call is commented out).  The
windowed write itself, were it invoked, is frame-correct: in the written
column, every snapshot inside the `[start_time, end_time]` slice takes the
resolved value (profile keyed by `constraint_id`, else the literal), and every
snapshot outside keeps its prior cell. -/
theorem c5_dynamic_amended :
    (∀ (s : List StaticConstraint) (d : List DynConstraint)
        (p : List (String × SeriesQ)) (st : ConstraintStageState),
        (addConstraints s d p st).1.tables = st.tables ∧
        (addConstraints s d p st).1.net = (applyStaticConstraints s st.net).1 ∧
        (addConstraints s d p st).2 = (applyStaticConstraints s st.net).2) ∧
    (∀ (p : List (String × SeriesQ)) (c : DynConstraint) (col : TimeCol) (t : ℕ),
        alookup (applyDynamicWrite p c col) t =
          if inWindow c.start_time c.end_time t = true then
            (alookup col t).map (fun _ => dynResolvedValue p c t)
          else alookup col t) := by
  constructor
  · intro s d p st
    exact ⟨rfl, rfl, rfl⟩
  · intro p c col t
    induction col with
    | nil =>
      show (none : Option (Option ℚ)) = _
      by_cases hw : inWindow c.start_time c.end_time t = true
      · rw [if_pos hw]
        rfl
      · rw [if_neg hw]
        rfl
    | cons hd tl ih =>
      obtain ⟨tk, v⟩ := hd
      rw [applyDynamicWrite_cons]
      by_cases hw : inWindow c.start_time c.end_time tk = true
      · rw [if_pos hw, alookup_cons]
        by_cases ht : tk = t
        · subst ht
          rw [if_pos rfl, if_pos hw, alookup_cons, if_pos rfl]
          rfl
        · rw [if_neg ht, alookup_cons, if_neg ht]
          exact ih
      · rw [if_neg hw, alookup_cons]
        by_cases ht : tk = t
        · subst ht
          rw [if_pos rfl, if_neg hw, alookup_cons, if_pos rfl]
        · rw [if_neg ht, alookup_cons, if_neg ht]
          exact ih

/-! ## C6: fail-fast teardown of the orchestrator -/

/-- C6: whenever any stage of the `setup_network` pipeline raises, the
orchestrator's handler performs the full teardown — `self.network = None`,
`self._tech_libraries.clear()` — and re-raises the same typed error, so no
network object is returned and no cached technology libraries remain. -/
theorem c6_teardown (cfg : BuildConfig) (e : String) (h : runStages cfg = .error e) :
    setupNetwork cfg = ({ network := none, techLibraries := [] }, .error e) := by
  unfold setupNetwork
  rw [h]

/-- Witness for `c6_teardown`: a generator declaring `type = UnknownGenType`
absent from the generator library makes the component stage raise, and the
teardown state is observed. -/
theorem c6_teardown_witness :
    setupNetwork c6Cfg = ({ network := none, techLibraries := [] },
      .error "generators: Component addition failed: KeyError: 'UnknownGenType'") :=
  c6_teardown c6Cfg "generators: Component addition failed: KeyError: 'UnknownGenType'" rfl

/-! ## C7: load-profile binding and alignment -/

theorem validateLoadProfile_ok_iff (snaps : List ℕ) (p : Profile) (nm : String) :
    validateLoadProfile snaps p nm = .ok () ↔
      p.indexName = some "snapshot" ∧ p.index = snaps := by
  unfold validateLoadProfile
  by_cases h1 : p.indexName = some "snapshot"
  · rw [if_pos h1]
    by_cases h2 : p.index = snaps
    · rw [if_pos h2]
      simp [h1, h2]
    · rw [if_neg h2]
      simp [h2]
  · rw [if_neg h1]
    simp [h1]

/-- C7 counterexample.  The claim says any mismatch in naming or index
equality raises an error identifying the load.  For a profile whose index
equals the snapshots but is named `time`, the naming-mismatch error is one
fixed string that does not mention the load: loads `L1` and `L2` receive the
identical message, so the error cannot identify the offending load. -/
theorem c7_counterexample :
    validateLoadProfile weekSnapshots c7BadProfile "L1" =
      .error "Load: Profile index must be named 'snapshot', got 'time'" ∧
    validateLoadProfile weekSnapshots c7BadProfile "L1" =
      validateLoadProfile weekSnapshots c7BadProfile "L2" := by
  refine ⟨by rfl, by rfl⟩

/-- C7 (amended): binding succeeds exactly when the profile's index is named
`snapshot` and is index-equal to the network snapshots; an index-equality
mismatch raises an error naming the load, while a naming mismatch raises an
error naming only the index; and every load registered by a successful
`_add_loads` run carries a series whose index is element-wise equal to the
snapshot sequence. -/
theorem c7_profile_binding_amended :
    (∀ (snaps : List ℕ) (p : Profile) (nm : String),
        validateLoadProfile snaps p nm = .ok () ↔
          p.indexName = some "snapshot" ∧ p.index = snaps) ∧
    (∀ (snaps : List ℕ) (p : Profile) (nm : String),
        p.indexName = some "snapshot" → p.index ≠ snaps →
        validateLoadProfile snaps p nm =
          .error ("Load: Time index mismatch for load " ++ nm)) ∧
    (∀ (snaps : List ℕ) (src : List (String × Profile)) (rows : List LoadRow)
        (out : List BoundLoad), addLoads snaps src rows = .ok out →
        ∀ b ∈ out, b.profile.indexName = some "snapshot" ∧ b.profile.index = snaps) := by
  refine ⟨validateLoadProfile_ok_iff, ?_, ?_⟩
  · intro snaps p nm h1 h2
    unfold validateLoadProfile
    rw [if_pos h1, if_neg h2]
  · intro snaps src rows
    induction rows with
    | nil =>
      intro out hout
      have h0 : out = [] := by
        have : (Except.ok [] : Except String (List BoundLoad)) = .ok out := hout
        injection this with h
        exact h.symm
      subst h0
      intro b hb
      simp at hb
    | cons r rest ih =>
      intro out hout
      rw [show addLoads snaps src (r :: rest) =
          (validateLoadProfile snaps ((alookup src r.profile_id).getD emptyProfile) r.name
            >>= fun _ => addLoads snaps src rest >>= fun outr =>
              Except.ok (⟨⟨r.name, r.bus⟩, (alookup src r.profile_id).getD emptyProfile⟩
                :: outr)) from rfl] at hout
      cases hv : validateLoadProfile snaps ((alookup src r.profile_id).getD emptyProfile)
          r.name with
      | error e =>
        rw [hv] at hout
        exact absurd hout (by simp [Bind.bind, Except.bind])
      | ok u =>
        cases u
        rw [hv] at hout
        cases hrec : addLoads snaps src rest with
        | error e =>
          rw [hrec] at hout
          exact absurd hout (by simp [Bind.bind, Except.bind])
        | ok outr =>
          rw [hrec] at hout
          simp only [Bind.bind, Except.bind] at hout
          injection hout with hout'
          subst hout'
          intro b hb
          rcases List.mem_cons.mp hb with hbl | hmem
          · subst hbl
            exact (validateLoadProfile_ok_iff snaps _ r.name).mp hv
          · exact ih outr hrec b hmem

/-- Witness for `c7_profile_binding_amended`: the load `L1` bound to the
well-formed profile `P1` carries a snapshot-aligned series. -/
theorem c7_profile_binding_amended_witness :
    c7Bound.profile.indexName = some "snapshot" ∧ c7Bound.profile.index = weekSnapshots :=
  c7_profile_binding_amended.2.2 weekSnapshots c7Src [c7LoadRow] [c7Bound] rfl
    c7Bound (List.mem_singleton.mpr rfl)

/-! ## C8: the fixed assembly order -/

/-- C8 counterexample.  The claim says every run of the pipeline registers
component classes in the order Bus, Transformer, Line, Generator, StorageUnit,
Link, Load.  The legacy `setup_network` of `src/network_setup.py` — one of the
two pipelines the repository ships — calls its adders in the order Bus,
Generator, StorageUnit, Load, Line, Transformer, Link instead. -/
theorem c8_counterexample : legacySetupOrder ≠ specClaimedOrder := by decide

/-- C8 (amended): the `_add_components` pipeline of
`hybrid_renewable_pypsa/src/network_setup.py` registers component classes in
the claimed order; the legacy pipeline of `src/network_setup.py` uses the
different order recorded in `legacySetupOrder`. -/
theorem c8_order_amended : assemblyClassOrder = specClaimedOrder := rfl

/-! ## C9: the allow-list of the legacy read layer -/

/-- C9 counterexample.  The claim says a file identifier outside the
allow-list is rejected with a named error that propagates to the caller
rather than an empty table being returned.  For `evil.csv` on a file system
where that file exists and parses, the `ValueError` is indeed raised inside
the body — but `read_csv` catches it, logs, and returns the empty DataFrame:
the caller sees `[]`, and no exception escapes. -/
theorem c9_counterexample :
    read_csv c9Fs "evil.csv" = [] ∧
    readCsvBody c9Fs "evil.csv" = .error (.valueError "Invalid file name: evil.csv") ∧
    c9Fs "evil.csv" = .table [[("name", Value.str "B1")]] := by
  refine ⟨by rfl, by rfl, by rfl⟩

/-- C9 (amended): a requested name outside the allow-list raises
`ValueError(f"Invalid file name: ...")` inside the body, but the read layer
catches every exception of its body and returns the empty table — the
disallowed name is logged and absorbed exactly like file-not-found, empty-file
and parse failures, and no exception escapes the layer. -/
theorem c9_read_layer_amended (fs : String → FileState) (nm : String) :
    (nm ∉ allowedFiles →
      readCsvBody fs nm = .error (.valueError ("Invalid file name: " ++ nm)) ∧
      read_csv fs nm = []) ∧
    ((fs nm = .missing ∨ fs nm = .fileEmpty ∨ fs nm = .malformed) →
      read_csv fs nm = []) := by
  constructor
  · intro hmem
    have hsan : sanitizeFileName nm = .error (.valueError ("Invalid file name: " ++ nm)) := by
      unfold sanitizeFileName
      rw [if_neg hmem]
    have hbody : readCsvBody fs nm = .error (.valueError ("Invalid file name: " ++ nm)) := by
      unfold readCsvBody
      rw [hsan]
    refine ⟨hbody, ?_⟩
    unfold read_csv
    rw [hbody]
  · intro hfs
    have hbody : ∃ er, readCsvBody fs nm = .error er := by
      unfold readCsvBody
      cases hsan : sanitizeFileName nm with
      | error e => exact ⟨e, rfl⟩
      | ok s =>
        have hs : s = nm := by
          unfold sanitizeFileName at hsan
          by_cases hmem : nm ∈ allowedFiles
          · rw [if_pos hmem] at hsan
            injection hsan with h
            exact h.symm
          · rw [if_neg hmem] at hsan
            exact absurd hsan (by simp)
        subst hs
        show ∃ er, (match fs s with
          | FileState.table rows => (Except.ok rows : Except PyError (List Attrs))
          | FileState.missing => Except.error PyError.fileNotFound
          | FileState.fileEmpty => Except.error PyError.emptyData
          | FileState.malformed => Except.error PyError.other) = Except.error er
        rcases hfs with h | h | h <;> rw [h] <;> exact ⟨_, rfl⟩
    obtain ⟨er, hbody⟩ := hbody
    unfold read_csv
    rw [hbody]

/-- Witness for `c9_read_layer_amended` at the disallowed name `evil.csv`. -/
theorem c9_read_layer_amended_witness :
    readCsvBody c9Fs "evil.csv" = .error (.valueError ("Invalid file name: " ++ "evil.csv")) ∧
    read_csv c9Fs "evil.csv" = [] :=
  (c9_read_layer_amended c9Fs "evil.csv").1 (by decide)

end HybridRenewable
